import Mathlib

/-
Verification development for the analytics-service computation-caching and
batch-orchestration engine (src/backend/analytics-service).

Shallow embedding of the relevant Python code:
  - services/tda_computation.py : timeout decorator, TDAComputationService
    (cache lookup, _cache_result, _cleanup_cache, _generate_cache_key,
    _aggregate_batch_results)
  - utils/graph_utils.py        : batch_process_subgraphs, compute_graph_density
  - models/graph_model.py       : GraphModel._partition_graph
  - services/graph_analysis.py  : GraphAnalysisService._check_resources

Machine floats and datetimes are modelled as exact numbers (Nat seconds, ℚ),
exceptions as an explicit error type, Python dicts as insertion-ordered
association lists (the semantics of dict in Python 3.7+).
-/

set_option autoImplicit false

namespace AnalyticsService

/-- Python exception kinds raised by the embedded code. -/
inductive PyErr where
  | valueError (msg : String)
  | memoryError
  | runtimeError (msg : String)
  | timeoutError (msg : String)
  | resourceWarning (msg : String)
  | nameError (msg : String)
  deriving Repr, DecidableEq

/-- One value of `self._cache`, as written by `_cache_result`
(tda_computation.py lines 225-228): the dict holding the cached
result and the `datetime.now()` at insertion (modelled in seconds). -/
structure CacheEntry (α : Type) where
  result : α
  timestamp : Nat
  deriving Repr, DecidableEq

/-- The in-process cache `self._cache`: a Python dict from cache-key strings
to entries, modelled as an insertion-ordered association list with unique
keys. -/
abbrev Cache (α : Type) : Type := List (String × CacheEntry α)

/-- Membership/lookup in a Python dict (first, and only, binding of a key). -/
def dlookup {γ : Type} : List (String × γ) → String → Option γ
  | [], _ => none
  | (k, v) :: rest, key => if k = key then some v else dlookup rest key

/-- Python dict assignment `d[key] = value`: overwrites in place when the key
exists, otherwise appends the new binding at the end (insertion order). -/
def dset {γ : Type} : List (String × γ) → String → γ → List (String × γ)
  | [], key, value => [(key, value)]
  | (k, v) :: rest, key, value =>
      if k = key then (k, value) :: rest else (k, v) :: dset rest key value

/-- The cache consultation at the start of `compute_network_tda`
(tda_computation.py lines 121-124): `if cache_key in self._cache:
return self._cache[cache_key]`.  Returns the stored entry when the key is
present, together with the cache state after the lookup.  The code consults
only key membership; it does not read the entry timestamp and removes
nothing. -/
def cacheGet {α : Type} (cache : Cache α) (key : String) :
    Option (CacheEntry α) × Cache α :=
  match dlookup cache key with
  | some entry => (some entry, cache)
  | none => (none, cache)

/-- `TDAComputationService._cleanup_cache` (tda_computation.py lines 230-253).
Its first statement is `timeout = timedelta(seconds=...)`, but the module
imports only `datetime` from the `datetime` package (`from datetime import
datetime`, line 19) and never `timedelta`; evaluating the name raises
`NameError` before any entry is examined, so the cache is left unchanged and
the error propagates. -/
def cleanupCache {α : Type} (_cfgTimeout _now : Nat) (_cache : Cache α) :
    Except PyErr (Cache α) :=
  Except.error (PyErr.nameError "name timedelta is not defined")

/-- `TDAComputationService._cache_result` (tda_computation.py lines 220-228):
when the cache already holds at least `max_size` entries it first runs
`_cleanup_cache` (whose failure propagates), then stores
`{result, timestamp := now}` under `key`. -/
def cacheResult {α : Type} (maxSize cfgTimeout now : Nat) (cache : Cache α)
    (key : String) (result : α) : Except PyErr (Cache α) :=
  if cache.length ≥ maxSize then
    match cleanupCache cfgTimeout now cache with
    | Except.error e => Except.error e
    | Except.ok cleaned => Except.ok (dset cleaned key ⟨result, now⟩)
  else
    Except.ok (dset cache key ⟨result, now⟩)

/-- The `timeout(seconds)` decorator (tda_computation.py lines 35-47) applied
to a computation whose run takes `duration` wall-clock seconds and finishes
with `outcome`.  The wrapper first runs the function to completion and only
then compares `time.time() - start_time` with `seconds`; the second component
is the wall-clock time the caller spends inside the wrapper, which is always
the full `duration`. -/
def timeoutWrap {β : Type} (seconds duration : Nat) (outcome : Except PyErr β) :
    Except PyErr β × Nat :=
  match outcome with
  | Except.error e => (Except.error e, duration)
  | Except.ok v =>
      if duration > seconds then
        (Except.error (PyErr.timeoutError
            "TDA computation exceeded maximum allowed time"), duration)
      else
        (Except.ok v, duration)

/-- Return value of `compute_network_tda`: a cache hit returns the stored
dict `{result, timestamp}` verbatim, a fresh computation returns the new
results object. -/
inductive TdaReturn (α : Type) where
  | hit (entry : CacheEntry α)
  | fresh (result : α)
  deriving Repr, DecidableEq

/-- `TDAComputationService.compute_network_tda` (tda_computation.py lines
103-161) for a request with cache key `key`: the cache membership check,
then — on a miss — the externally delegated computation (modelled by its
outcome `inner`, the body of lines 133-152 producing a results value), then
`_cache_result`, all wrapped by the `timeout` decorator; `duration` is the
wall-clock time of the whole call and `now` the completion time used for the
cache timestamp.  The pair returned is (call outcome, cache state after the
call). -/
def computeNetworkTda {α : Type} (maxSize cfgTimeout seconds : Nat)
    (cache : Cache α) (key : String) (inner : Except PyErr α)
    (duration now : Nat) : Except PyErr (TdaReturn α) × Cache α :=
  let body : Except PyErr (TdaReturn α) × Cache α :=
    match cacheGet cache key with
    | (some entry, cache1) => (Except.ok (TdaReturn.hit entry), cache1)
    | (none, cache1) =>
        match inner with
        | Except.error e => (Except.error e, cache1)
        | Except.ok result =>
            match cacheResult maxSize cfgTimeout now cache1 key result with
            | Except.error e => (Except.error e, cache1)
            | Except.ok cache2 => (Except.ok (TdaReturn.fresh result), cache2)
  ((timeoutWrap seconds duration body.1).1, body.2)

/-- `MAX_RETRIES` (graph_utils.py line 27). -/
def MAX_RETRIES : Nat := 3

/-- The observable behaviour of one iteration of the `try` body of
`batch_process_subgraphs` (graph_utils.py lines 181-193) at a given batch
size: `model.batch_process_graph(batch_size=...)` followed by `process_fn`
over each subgraph.  `produced` lists the results appended to `results`
before the body either finished (`err = none`) or raised (`err = some e`). -/
structure Attempt (α : Type) where
  produced : List α
  err : Option PyErr
  deriving Repr

/-- The `while retries < MAX_RETRIES` loop of `batch_process_subgraphs`
(graph_utils.py lines 180-204) followed by the `if retries == MAX_RETRIES:
raise RuntimeError(...)` check: `fuel = MAX_RETRIES - retries` attempts
remain, `bs` is the current `batch_size`, `acc` the `results` accumulated so
far.  Only `MemoryError` is caught (halving `batch_size` and retrying); any
other exception propagates; a body that finishes breaks out of the loop and
the accumulated `results` are returned. -/
def batchLoop {α : Type} (attempt : Nat → Attempt α) :
    Nat → Nat → List α → Except PyErr (List α)
  | 0, _, _ =>
      Except.error (PyErr.runtimeError "Max retries exceeded in batch processing")
  | fuel + 1, bs, acc =>
      let a := attempt bs
      match a.err with
      | none => Except.ok (acc ++ a.produced)
      | some PyErr.memoryError => batchLoop attempt fuel (bs / 2) (acc ++ a.produced)
      | some e => Except.error e

/-- `batch_process_subgraphs` (graph_utils.py lines 155-208): rejects a
missing `process_fn` with `ValueError`, otherwise runs the adaptive retry
loop starting from `batchSize` with an empty `results` list and the full
retry budget. -/
def batchProcessSubgraphs {α : Type} (hasProcessFn : Bool)
    (attempt : Nat → Attempt α) (batchSize : Nat) : Except PyErr (List α) :=
  if !hasProcessFn then
    Except.error (PyErr.valueError "Processing function must be provided")
  else
    batchLoop attempt MAX_RETRIES batchSize []

/-- The `for community in communities` loop of `GraphModel._partition_graph`
(graph_model.py lines 287-296) plus the trailing `if current_partition.
number_of_nodes() > 0` append.  A partition is modelled by its node list;
`nx.compose(current_partition, subgraph)` on node-disjoint graphs is node-list
concatenation, and `self._graph.subgraph(community)` has exactly the
community's nodes (Louvain communities are subsets of the graph's nodes).
The loop closes `current` and starts a fresh partition from the next
community only once `current` has reached `batchSize` nodes. -/
def partitionLoop (batchSize : Nat) : List (List Nat) → List Nat → List (List Nat)
  | [], current => if current.length > 0 then [current] else []
  | c :: rest, current =>
      if current.length ≥ batchSize then
        current :: partitionLoop batchSize rest c
      else
        partitionLoop batchSize rest (current ++ c)

/-- `GraphModel._partition_graph(batch_size)` (graph_model.py lines 280-298),
taking the community decomposition returned by
`nx.community.louvain_communities` (an external library call: a list of
non-empty, pairwise-disjoint node sets covering the graph) as input and
starting from an empty `current_partition`. -/
def partitionGraph (batchSize : Nat) (communities : List (List Nat)) :
    List (List Nat) :=
  partitionLoop batchSize communities []

/-- A Python parameter value as it appears in the `params` dict (numeric or
string options). -/
inductive PyVal where
  | int (n : Int)
  | str (s : String)
  deriving Repr, DecidableEq

/-- The single-quote character used by Python `repr` for strings (written via
its code point to keep the source plain). -/
def pyQuote : String := String.singleton (Char.ofNat 39)

/-- Python `repr` of a parameter value, as used inside `str(params)`. -/
def PyVal.pyRepr : PyVal → String
  | PyVal.int n => toString n
  | PyVal.str s => pyQuote ++ s ++ pyQuote

/-- Python `str(params)` for a dict given by its insertion-ordered key/value
pairs: renders `\x7b'k1': v1, 'k2': v2\x7d`, in insertion order — the raw,
order-dependent serialization that `_generate_cache_key` hashes. -/
def pyStrDict (params : List (String × PyVal)) : String :=
  "\x7b" ++
    String.intercalate ", "
      (params.map (fun p => pyQuote ++ p.1 ++ pyQuote ++ ": " ++ p.2.pyRepr)) ++
  "\x7d"

/-- Model of Python's built-in `hash` on strings: an injective base-1114112
fold over the code points.  (The real interpreter uses a per-process salted
SipHash; what matters for the embedding is that it is a fixed function of the
string with no collisions on the handful of strings considered here.) -/
def pyHash (s : String) : Int :=
  s.data.foldl (fun a c => a * 1114112 + (Int.ofNat c.toNat + 1)) 0

/-- `TDAComputationService._generate_cache_key` (tda_computation.py lines
255-261): `data_hash = hash(data.tobytes())`, `params_hash =
hash(str(params)) if params else 0` (an absent or empty dict is falsy and is
modelled by `[]`), joined as `f"\x7bdata_hash\x7d_\x7bparams_hash\x7d"`. -/
def generateCacheKey (dataBytes : String) (params : List (String × PyVal)) :
    String :=
  toString (pyHash dataBytes) ++ "_" ++
    toString (if params.isEmpty then (0 : Int) else pyHash (pyStrDict params))

/-- One per-partition result as consumed by `_aggregate_batch_results`
(tda_computation.py lines 263-281): the persistence diagram (a stack of rows
of type `ρ`), the `features` dict (insertion-ordered), and the
`computation_time` in seconds. -/
structure BatchResult (ρ β : Type) where
  persistence_diagram : List ρ
  features : List (String × β)
  computation_time : Nat
  deriving Repr

/-- The aggregated result built by `_aggregate_batch_results`. -/
structure Aggregated (ρ β : Type) where
  persistence_diagram : List ρ
  features : List (String × List β)
  computation_time : Nat
  deriving Repr

/-- `np.vstack` over a list of row-stacks of shape-compatible rows (each row
opaque of type `ρ`; the inputs produced by the service are k×2 diagrams, so
the column-count check never fires and is not modelled): fails on an empty
argument list, otherwise concatenates the stacks in order. -/
def npVstack {ρ : Type} (arrays : List (List ρ)) : Except PyErr (List ρ) :=
  if arrays.isEmpty then
    Except.error (PyErr.valueError "need at least one array to concatenate")
  else
    Except.ok arrays.flatten

/-- The inner statements of the feature-aggregation loop (tda_computation.py
lines 276-279): `if feature not in aggregated: aggregated[feature] = []` then
`aggregated[feature].append(value)` — append to the existing list in place,
or bind the key at the end of the dict with a one-element list. -/
def dictAppend {β : Type} :
    List (String × List β) → String → β → List (String × List β)
  | [], key, value => [(key, [value])]
  | (k, vs) :: rest, key, value =>
      if k = key then (k, vs ++ [value]) :: rest
      else (k, vs) :: dictAppend rest key value

/-- The nested `for result in batch_results: for feature, value in
result['features'].items()` loop of `_aggregate_batch_results`
(tda_computation.py lines 275-279), starting from the empty `features`
dict. -/
def collectFeatures {ρ β : Type} (batchResults : List (BatchResult ρ β)) :
    List (String × List β) :=
  batchResults.foldl
    (fun acc r => r.features.foldl (fun a p => dictAppend a p.1 p.2) acc) []

/-- `TDAComputationService._aggregate_batch_results` (tda_computation.py
lines 263-281): `np.vstack` of the diagrams in order, the feature-collection
loop, and the sum of the `computation_time` fields. -/
def aggregateBatchResults {ρ β : Type} (batchResults : List (BatchResult ρ β)) :
    Except PyErr (Aggregated ρ β) :=
  match npVstack (batchResults.map (fun r => r.persistence_diagram)) with
  | Except.error e => Except.error e
  | Except.ok diagram =>
      Except.ok
        { persistence_diagram := diagram
          features := collectFeatures batchResults
          computation_time :=
            (batchResults.map (fun r => r.computation_time)).sum }

/-- `GraphAnalysisService._check_resources` (graph_analysis.py lines
219-227) with `self._memory_thresholds = \x7b'warning': 0.7, 'critical':
0.85\x7d` (lines 64-67).  `readings i` is the value the memory monitor would
report on its (i+1)-th call; the code calls `get_memory_usage()` exactly once
(`readings 0`).  Returns the outcome (`ResourceWarning` raised above the
critical threshold) paired with whether `_cleanup_cache()` was invoked. -/
def checkResources (readings : Nat → ℚ) : Except PyErr Unit × Bool :=
  let memory_usage := readings 0
  if memory_usage > 85 / 100 then
    (Except.error (PyErr.resourceWarning "Critical memory usage detected"), true)
  else if memory_usage > 7 / 10 then
    (Except.ok (), true)
  else
    (Except.ok (), false)

/-- Modelled from the spec: the preflight check of §4.3 as the claim states
it — above the critical fraction the guard first evicts, re-checks
availability once (`readings 1`, the monitor value after eviction), and
refuses only if the re-check still exceeds the critical fraction.  This
definition exists solely for comparison against `checkResources`; the code
under src/ has no re-check. -/
def checkResourcesSpec (readings : Nat → ℚ) : Except PyErr Unit × Bool :=
  let usage := readings 0
  if usage > 85 / 100 then
    if readings 1 > 85 / 100 then
      (Except.error (PyErr.resourceWarning "Critical memory usage detected"), true)
    else
      (Except.ok (), true)
  else if usage > 7 / 10 then
    (Except.ok (), true)
  else
    (Except.ok (), false)

/-- A NetworkX graph as seen through its sparse adjacency matrix: `n` nodes
numbered below `n`, `adj` the set of nonzero matrix positions (both `(i,j)`
and `(j,i)` for an edge, the diagonal position for a self-loop). -/
structure NxGraph where
  n : Nat
  adj : Finset (Nat × Nat)
  deriving DecidableEq

/-- Well-formedness of the adjacency-matrix view: positions in range and
symmetric (NetworkX `Graph` is undirected). -/
def NxGraph.wf (g : NxGraph) : Prop :=
  (∀ p ∈ g.adj, p.1 < g.n ∧ p.2 < g.n) ∧ (∀ p ∈ g.adj, (p.2, p.1) ∈ g.adj)

instance (g : NxGraph) : Decidable g.wf := by
  unfold NxGraph.wf; infer_instance

/-- `compute_graph_density` (graph_utils.py lines 125-153): `0.0` for fewer
than two nodes, otherwise `m / max_edges` with `m = nnz // 2` (integer
division of the nonzero count) and `max_edges = n * (n - 1) // 2`, guarded by
`if max_edges > 0`. -/
def computeGraphDensity (g : NxGraph) : ℚ :=
  if g.n < 2 then 0
  else
    let m : Nat := g.adj.card / 2
    let max_edges : Nat := g.n * (g.n - 1) / 2
    if max_edges > 0 then (m : ℚ) / (max_edges : ℚ) else 0

/-- C1 (amended): the cache lookup in `compute_network_tda` consults only key
membership: whenever the key is bound — even at a time strictly later than
`created_at + ttl_seconds`, for any TTL — it returns the stored entry rather
than a miss, and the lookup removes nothing (the cache after the lookup is
the cache before it).  TTL is consulted only by the cleanup pass that a
`put` at capacity triggers. -/
theorem c1_cache_get_ignores_ttl {α : Type} (cache : Cache α) (key : String)
    (entry : CacheEntry α) (ttl now : Nat)
    (hfound : dlookup cache key = some entry)
    (_hexpired : now > entry.timestamp + ttl) :
    cacheGet cache key = (some entry, cache) := by
  unfold cacheGet
  rw [hfound]

/-- C1 witness: the amended theorem applied to a one-entry cache whose entry
was created at time 0 with TTL 3600, looked up at time 1000000. -/
theorem c1_cache_get_ignores_ttl_witness :
    dlookup ([("k", ⟨"p", 0⟩)] : Cache String) "k" = some ⟨"p", 0⟩ ∧
    1000000 > 0 + 3600 ∧
    cacheGet ([("k", ⟨"p", 0⟩)] : Cache String) "k" =
      (some ⟨"p", 0⟩, [("k", ⟨"p", 0⟩)]) :=
  ⟨by decide, by decide,
    c1_cache_get_ignores_ttl [("k", ⟨"p", 0⟩)] "k" ⟨"p", 0⟩ 3600 1000000
      (by decide) (by decide)⟩

/-- C1 counterexample: with the entry created at time 0 and
`ttl_seconds = 3600`, a lookup issued at time 1000000 (strictly later than
`created_at + ttl_seconds`) still returns the stored payload instead of a
miss, and the stale entry is not removed — the claim is false as stated. -/
theorem c1_ttl_counterexample :
    cacheGet ([("k", ⟨"p", 0⟩)] : Cache String) "k" =
      (some ⟨"p", 0⟩, [("k", ⟨"p", 0⟩)]) ∧
    (1000000 : Nat) > 0 + 3600 := by
  constructor
  · rfl
  · decide

/-- C4 (amended): on a cache miss, a computation that itself raises writes no
cache entry — the cache after the failed call equals the cache before it and
the error propagates; but when the computation succeeds and only the deadline
is exceeded, the result has already been cached before the `timeout` wrapper
raises: the call reports `TimeoutError` while the cache still gains the
entry. -/
theorem c4_no_cache_write_except_timeout {α : Type}
    (maxSize cfgTimeout seconds : Nat) (cache : Cache α) (key : String)
    (duration now : Nat) (hmiss : dlookup cache key = none) :
    (∀ e : PyErr,
      computeNetworkTda maxSize cfgTimeout seconds cache key (Except.error e)
          duration now = (Except.error e, cache)) ∧
    (∀ r : α, cache.length < maxSize → duration > seconds →
      computeNetworkTda maxSize cfgTimeout seconds cache key (Except.ok r)
          duration now =
        (Except.error (PyErr.timeoutError
            "TDA computation exceeded maximum allowed time"),
         dset cache key ⟨r, now⟩)) := by
  constructor
  · intro e
    simp only [computeNetworkTda, cacheGet, hmiss, timeoutWrap]
  · intro r hlen hdur
    have hnot : ¬ cache.length ≥ maxSize := Nat.not_le_of_lt hlen
    simp only [computeNetworkTda, cacheGet, hmiss, cacheResult, if_neg hnot,
      timeoutWrap, if_pos hdur]

/-- C4 witness: the amended theorem applied to an empty cache, capacity 1000,
deadline 300 s, a call lasting 301 s. -/
theorem c4_no_cache_write_except_timeout_witness :
    dlookup ([] : Cache String) "k" = none ∧
    computeNetworkTda 1000 3600 300 ([] : Cache String) "k"
        (Except.error PyErr.memoryError) 301 42 =
      (Except.error PyErr.memoryError, []) ∧
    computeNetworkTda 1000 3600 300 ([] : Cache String) "k"
        (Except.ok "r") 301 42 =
      (Except.error (PyErr.timeoutError
          "TDA computation exceeded maximum allowed time"),
       [("k", ⟨"r", 42⟩)]) :=
  ⟨by decide,
    (c4_no_cache_write_except_timeout 1000 3600 300 [] "k" 301 42
      (by decide)).1 PyErr.memoryError,
    (c4_no_cache_write_except_timeout 1000 3600 300 [] "k" 301 42
      (by decide)).2 "r" (by decide) (by decide)⟩

/-- C4 counterexample: a request whose computation fails with a timeout
reported by the `timeout` wrapper (deadline 300 s, run of 301 s) does write a
cache entry for its fingerprint: the cache goes from empty to holding the
result, so the cache state after the failed call differs from the state
before it — the claim is false as stated. -/
theorem c4_timeout_writes_cache_counterexample :
    computeNetworkTda 1000 3600 300 ([] : Cache String) "k"
        (Except.ok "r") 301 42 =
      (Except.error (PyErr.timeoutError
          "TDA computation exceeded maximum allowed time"),
       [("k", ⟨"r", 42⟩)]) ∧
    ([("k", (⟨"r", 42⟩ : CacheEntry String))] ≠ []) := by
  constructor
  · rfl
  · decide

/-- C6: the eviction pass itself is broken in the code: `_cleanup_cache`
evaluates `timedelta`, a name the module never imports, so every `put`
(`_cache_result`) issued while the store holds at least `max_size` entries
raises `NameError` instead of evicting, and no entry is written. -/
theorem c6_cleanup_raises_name_error {α : Type}
    (maxSize cfgTimeout now : Nat) (cache : Cache α) (key : String)
    (result : α) (hfull : cache.length ≥ maxSize) :
    cacheResult maxSize cfgTimeout now cache key result =
      Except.error (PyErr.nameError "name timedelta is not defined") := by
  simp only [cacheResult, if_pos hfull, cleanupCache]

/-- C6 witness: the failing input evaluated concretely — capacity 2, a store
already holding 2 entries, one of them long expired (created at 0, TTL
3600, now 1000000): the put raises `NameError`. -/
theorem c6_cleanup_raises_name_error_witness :
    ([("a", ⟨"x", 0⟩), ("b", ⟨"y", 999999⟩)] : Cache String).length ≥ 2 ∧
    cacheResult 2 3600 1000000
        ([("a", ⟨"x", 0⟩), ("b", ⟨"y", 999999⟩)] : Cache String) "c" "z" =
      Except.error (PyErr.nameError "name timedelta is not defined") :=
  ⟨by decide,
    c6_cleanup_raises_name_error 2 3600 1000000
      [("a", ⟨"x", 0⟩), ("b", ⟨"y", 999999⟩)] "c" "z" (by decide)⟩

/-- C8 (amended): the `timeout` wrapper reports `TimeoutError` whenever a
normally-completing computation's duration exceeds the deadline, and within
the deadline it returns the wrapped function's result unchanged; but the
caller always awaits the underlying computation's full duration — the
elapsed wall-clock time of the wrapped call equals the computation's
duration even when it exceeds the deadline (the check is made only after
completion; nothing is interrupted). -/
theorem c8_timeout_full_await {β : Type} (seconds duration : Nat) (v : β) :
    (duration > seconds →
      timeoutWrap seconds duration (Except.ok v) =
        (Except.error (PyErr.timeoutError
            "TDA computation exceeded maximum allowed time"), duration)) ∧
    (duration ≤ seconds →
      timeoutWrap seconds duration (Except.ok v) = (Except.ok v, duration)) ∧
    (∀ outcome : Except PyErr β,
      (timeoutWrap seconds duration outcome).2 = duration) := by
  refine ⟨fun h => ?_, fun h => ?_, fun outcome => ?_⟩
  · simp only [timeoutWrap, if_pos h]
  · simp only [timeoutWrap, if_neg (Nat.not_lt_of_le h)]
  · cases outcome with
    | error e => rfl
    | ok v => simp only [timeoutWrap]; split <;> rfl

/-- C8 witness: the amended theorem applied at deadline 5 s, duration 10 s
(timeout reported, 10 s awaited) and at deadline 5 s, duration 3 s (result
returned unchanged). -/
theorem c8_timeout_full_await_witness :
    timeoutWrap 5 10 (Except.ok (42 : Nat)) =
      (Except.error (PyErr.timeoutError
          "TDA computation exceeded maximum allowed time"), 10) ∧
    timeoutWrap 5 3 (Except.ok (42 : Nat)) = (Except.ok 42, 3) :=
  ⟨(c8_timeout_full_await 5 10 42).1 (by decide),
    (c8_timeout_full_await 5 3 42).2.1 (by decide)⟩

/-- C8 counterexample: with a 5-second deadline and a computation that takes
10 seconds, the caller spends the full 10 seconds inside the wrapper — it
does await the underlying computation's completion beyond the deadline, so
the claim is false as stated. -/
theorem c8_await_beyond_deadline_counterexample :
    (timeoutWrap 5 10 (Except.ok (42 : Nat))).2 = 10 ∧ ¬ ((10 : Nat) ≤ 5) := by
  constructor
  · rfl
  · decide

/-- C2: for every positive initial `target_size` N, if the per-batch
computation signals out-of-memory at every attempted size, batch processing
retries with the halved sizes N/2, then N/4, and surfaces the fatal error
(`RuntimeError("Max retries exceeded in batch processing")`, the code's
realization of `BatchProcessingFailed`) only after the third failure — it
never returns a (silent, partial) result; and the halving schedule is tight:
a success at N/2 or at N/4 ends the loop with the accumulated results
instead. -/
theorem c2_adaptive_retry {α : Type} (attempt : Nat → Attempt α) (N : Nat) :
    ((attempt N).err = some PyErr.memoryError →
     (attempt (N / 2)).err = some PyErr.memoryError →
     (attempt (N / 4)).err = some PyErr.memoryError →
     batchProcessSubgraphs true attempt N =
       Except.error (PyErr.runtimeError "Max retries exceeded in batch processing")) ∧
    ((attempt N).err = some PyErr.memoryError →
     (attempt (N / 2)).err = none →
     batchProcessSubgraphs true attempt N =
       Except.ok ((attempt N).produced ++ (attempt (N / 2)).produced)) ∧
    ((attempt N).err = some PyErr.memoryError →
     (attempt (N / 2)).err = some PyErr.memoryError →
     (attempt (N / 4)).err = none →
     batchProcessSubgraphs true attempt N =
       Except.ok ((attempt N).produced ++ (attempt (N / 2)).produced ++
         (attempt (N / 4)).produced)) := by
  have h24 : N / 2 / 2 = N / 4 := by
    rw [Nat.div_div_eq_div_mul]
  refine ⟨fun h1 h2 h3 => ?_, fun h1 h2 => ?_, fun h1 h2 h3 => ?_⟩
  · simp only [batchProcessSubgraphs, Bool.not_true, MAX_RETRIES,
      batchLoop, h1, h24, h2, h3]
    rfl
  · simp only [batchProcessSubgraphs, Bool.not_true, MAX_RETRIES,
      batchLoop, h1, h2, List.nil_append]
    rfl
  · simp only [batchProcessSubgraphs, Bool.not_true, MAX_RETRIES,
      batchLoop, h1, h24, h2, h3, List.nil_append, List.append_assoc]
    rfl

/-- C2 witness: the theorem applied to two concrete environments with
N = 8 — one failing with `MemoryError` at every size (sizes 8, 4, 2 are
attempted, then the fatal error), one failing only at size 8 (the retry at 4
succeeds and returns the results of attempts 8 and 4 in order). -/
theorem c2_adaptive_retry_witness :
    batchProcessSubgraphs true
        (fun bs => ⟨[bs], if bs ≥ 2 then some PyErr.memoryError else none⟩) 8 =
      Except.error (PyErr.runtimeError "Max retries exceeded in batch processing") ∧
    batchProcessSubgraphs true
        (fun bs => ⟨[bs], if bs = 8 then some PyErr.memoryError else none⟩) 8 =
      Except.ok [8, 4] :=
  ⟨(c2_adaptive_retry
      (fun bs => ⟨[bs], if bs ≥ 2 then some PyErr.memoryError else none⟩) 8).1
      (by decide) (by decide) (by decide),
    (c2_adaptive_retry
      (fun bs => ⟨[bs], if bs = 8 then some PyErr.memoryError else none⟩) 8).2.1
      (by decide) (by decide)⟩

/-- Flattening the partitions returned by the partition loop yields the
still-pending partition followed by the remaining communities, in order. -/
theorem partitionLoop_flatten (batchSize : Nat) (communities : List (List Nat)) :
    ∀ current : List Nat,
      (partitionLoop batchSize communities current).flatten =
        current ++ communities.flatten := by
  induction communities with
  | nil =>
      intro current
      cases current with
      | nil => simp [partitionLoop]
      | cons a t => simp [partitionLoop]
  | cons c rest ih =>
      intro current
      simp only [partitionLoop]
      split
      · simp [ih]
      · rw [ih (current ++ c), List.append_assoc]
        simp

/-- Every partition produced by the partition loop, except possibly the last
one, has at least `batchSize` nodes: the loop closes a partition only once
it has reached the target. -/
theorem partitionLoop_min_size (batchSize : Nat) (communities : List (List Nat)) :
    ∀ (current : List Nat) (i : Nat),
      i + 1 < (partitionLoop batchSize communities current).length →
      batchSize ≤ ((partitionLoop batchSize communities current).getD i []).length := by
  induction communities with
  | nil =>
      intro current i hi
      exfalso
      cases current with
      | nil => simp [partitionLoop] at hi
      | cons a t => simp [partitionLoop] at hi
  | cons c rest ih =>
      intro current i hi
      simp only [partitionLoop] at hi ⊢
      by_cases hclose : current.length ≥ batchSize
      · rw [if_pos hclose] at hi ⊢
        cases i with
        | zero => simpa using hclose
        | succ j =>
            simp only [List.getD_cons_succ]
            exact ih c j (by simpa using hi)
      · rw [if_neg hclose] at hi ⊢
        exact ih (current ++ c) i hi

/-- C3 (amended): for every target size, the ordered partitions returned by
`_partition_graph` cover every original node exactly once — flattening the
partitions reproduces the community decomposition exactly, so with
Louvain's disjoint communities no node is omitted or duplicated; but the
size bound is reversed from the claim: every partition except possibly the
last has node count ≥ `target_size` (a partition is closed only after
reaching the target, so it may exceed it by up to the last community
added). -/
theorem c3_partition_cover_and_min_size (batchSize : Nat)
    (communities : List (List Nat)) :
    (partitionGraph batchSize communities).flatten = communities.flatten ∧
    (∀ i : Nat, i + 1 < (partitionGraph batchSize communities).length →
      batchSize ≤ ((partitionGraph batchSize communities).getD i []).length) := by
  constructor
  · simpa using partitionLoop_flatten batchSize communities []
  · exact fun i hi => partitionLoop_min_size batchSize communities [] i hi

/-- C3 witness: the theorem applied to three communities of sizes 2, 2, 1
with target size 2: the partitions flatten back to the original nodes and
the first (non-last) partition meets the minimum size. -/
theorem c3_partition_cover_and_min_size_witness :
    (partitionGraph 2 [[0, 1], [2, 3], [4]]).flatten =
      ([[0, 1], [2, 3], [4]] : List (List Nat)).flatten ∧
    2 ≤ ((partitionGraph 2 [[0, 1], [2, 3], [4]]).getD 0 []).length :=
  ⟨(c3_partition_cover_and_min_size 2 [[0, 1], [2, 3], [4]]).1,
    (c3_partition_cover_and_min_size 2 [[0, 1], [2, 3], [4]]).2 0 (by decide)⟩

/-- C3 counterexample: with `target_size = 1` and communities `\x7b0,1\x7d`
then `\x7b2\x7d`, the first returned partition holds 2 nodes although it is
not the last one — a non-last partition exceeds `target_size`, so the claim's
"≤ target_size" bound is false as stated. -/
theorem c3_partition_size_counterexample :
    partitionGraph 1 [[0, 1], [2]] = [[0, 1], [2]] ∧
    ((partitionGraph 1 [[0, 1], [2]]).getD 0 []).length = 2 ∧
    (partitionGraph 1 [[0, 1], [2]]).length = 2 ∧
    ¬ ((2 : Nat) ≤ 1) := by
  refine ⟨by decide, by decide, by decide, by decide⟩

/-- C5 (amended): the fingerprint is stable across repeated calls — it is a
pure function of the data bytes and of the raw, insertion-order-dependent
serialization `str(params)`: any two params dicts with the same serialization
receive the same cache key.  No normalization is applied, so key-order
permutations of `params` change the serialization and, in general, the
key. -/
theorem c5_fingerprint_factors_through_str (dataBytes : String)
    (p q : List (String × PyVal)) (hp : p ≠ []) (hq : q ≠ [])
    (hstr : pyStrDict p = pyStrDict q) :
    generateCacheKey dataBytes p = generateCacheKey dataBytes q := by
  have hp' : p.isEmpty = false := by
    cases p with
    | nil => exact absurd rfl hp
    | cons a t => rfl
  have hq' : q.isEmpty = false := by
    cases q with
    | nil => exact absurd rfl hq
    | cons a t => rfl
  simp only [generateCacheKey, hp', hq', Bool.false_eq_true, if_neg, hstr]

/-- C5 witness: the amended theorem applied to two literal params dicts with
the same serialization. -/
theorem c5_fingerprint_factors_through_str_witness :
    generateCacheKey "d" [("a", PyVal.int 1), ("b", PyVal.int 2)] =
      generateCacheKey "d" [("a", PyVal.int 1), ("b", PyVal.int 2)] :=
  c5_fingerprint_factors_through_str "d"
    [("a", PyVal.int 1), ("b", PyVal.int 2)]
    [("a", PyVal.int 1), ("b", PyVal.int 2)]
    (by decide) (by decide) rfl

/-- C5 counterexample: the params dicts `\x7b'a': 1, 'b': 2\x7d` and
`\x7b'b': 2, 'a': 1\x7d` contain the same key/value pairs (one is a
permutation of the other), yet their fingerprints for identical input data
differ — the claim is false as stated. -/
theorem c5_permutation_counterexample :
    ([("a", PyVal.int 1), ("b", PyVal.int 2)] : List (String × PyVal)).Perm
      [("b", PyVal.int 2), ("a", PyVal.int 1)] ∧
    generateCacheKey "d" [("a", PyVal.int 1), ("b", PyVal.int 2)] ≠
      generateCacheKey "d" [("b", PyVal.int 2), ("a", PyVal.int 1)] := by
  constructor
  · exact List.Perm.swap _ _ _
  · decide

/-- C7 (amended): the preflight resource check proceeds with no eviction at
or below the 70% warning fraction, proceeds and triggers an opportunistic
cache eviction between 70% and 85%, and above the 85% critical fraction it
triggers the eviction and then refuses (`ResourceWarning`, the code's
realization of `ResourceExhausted`) unconditionally — without re-checking
availability. -/
theorem c7_check_resources_bands (readings : Nat → ℚ) :
    (readings 0 ≤ 7 / 10 → checkResources readings = (Except.ok (), false)) ∧
    (7 / 10 < readings 0 → readings 0 ≤ 85 / 100 →
      checkResources readings = (Except.ok (), true)) ∧
    (85 / 100 < readings 0 →
      checkResources readings =
        (Except.error (PyErr.resourceWarning "Critical memory usage detected"),
         true)) := by
  refine ⟨fun h => ?_, fun h1 h2 => ?_, fun h => ?_⟩
  · simp only [checkResources]
    rw [if_neg (not_lt.mpr (h.trans (by norm_num))), if_neg (not_lt.mpr h)]
  · simp only [checkResources]
    rw [if_neg (not_lt.mpr h2), if_pos h1]
  · simp only [checkResources]
    rw [if_pos h]

/-- C7 witness: the amended theorem applied to monitors reporting 50%, 80%
and 90% usage. -/
theorem c7_check_resources_bands_witness :
    checkResources (fun _ => 5 / 10) = (Except.ok (), false) ∧
    checkResources (fun _ => 8 / 10) = (Except.ok (), true) ∧
    checkResources (fun _ => 9 / 10) =
      (Except.error (PyErr.resourceWarning "Critical memory usage detected"),
       true) :=
  ⟨(c7_check_resources_bands (fun _ => 5 / 10)).1 (by norm_num),
    (c7_check_resources_bands (fun _ => 8 / 10)).2.1 (by norm_num) (by norm_num),
    (c7_check_resources_bands (fun _ => 9 / 10)).2.2 (by norm_num)⟩

/-- C7 counterexample: a monitor reporting 90% usage before eviction and 10%
after it.  The claim says the guard refuses only after attempting eviction
and re-checking availability once — with the re-check showing 10% it would
proceed (as `checkResourcesSpec`, the claim modelled verbatim, does) — but
the code refuses without consulting the second reading, so the claim is
false as stated. -/
theorem c7_no_recheck_counterexample :
    checkResources (fun i => if i = 0 then 9 / 10 else 1 / 10) =
      (Except.error (PyErr.resourceWarning "Critical memory usage detected"),
       true) ∧
    checkResourcesSpec (fun i => if i = 0 then 9 / 10 else 1 / 10) =
      (Except.ok (), true) := by
  constructor
  · simp only [checkResourcesSpec, checkResources]
    norm_num
  · simp only [checkResourcesSpec, checkResources]
    norm_num

/-- C10 (amended): `compute_graph_density` returns 0.0 when the graph has
fewer than 2 nodes, and for every well-formed graph without self-loops the
returned density lies in [0, 1].  (A self-loop contributes a diagonal
nonzero that the `nnz // 2` edge count still charges against the loopless
maximum `n(n-1)/2`, which can push the value above 1.) -/
theorem c10_density_bounds (g : NxGraph) :
    (g.n < 2 → computeGraphDensity g = 0) ∧
    (g.wf → (∀ p ∈ g.adj, p.1 ≠ p.2) →
      0 ≤ computeGraphDensity g ∧ computeGraphDensity g ≤ 1) := by
  constructor
  · intro h
    simp only [computeGraphDensity, if_pos h]
  · intro hwf hloop
    by_cases hn : g.n < 2
    · simp only [computeGraphDensity, if_pos hn]
      norm_num
    · have hn2 : 2 ≤ g.n := not_lt.mp hn
      have hsub : g.adj ⊆ (Finset.range g.n).offDiag := by
        intro p hp
        obtain ⟨hx, hy⟩ := hwf.1 p hp
        exact Finset.mem_offDiag.mpr
          ⟨Finset.mem_range.mpr hx, Finset.mem_range.mpr hy, hloop p hp⟩
      have hmulsub : g.n * (g.n - 1) = g.n * g.n - g.n := by
        cases g.n with
        | zero => rfl
        | succ k => simp [Nat.succ_sub_one, Nat.mul_succ]
      have hcard : g.adj.card ≤ g.n * (g.n - 1) := by
        calc g.adj.card ≤ (Finset.range g.n).offDiag.card :=
              Finset.card_le_card hsub
          _ = g.n * g.n - g.n := by
              rw [Finset.offDiag_card, Finset.card_range]
          _ = g.n * (g.n - 1) := hmulsub.symm
      have hm : g.adj.card / 2 ≤ g.n * (g.n - 1) / 2 :=
        Nat.div_le_div_right hcard
      have h2 : 2 ≤ g.n * (g.n - 1) := by
        have := Nat.mul_le_mul hn2 (show 1 ≤ g.n - 1 by omega)
        simpa using this
      have hmaxpos : 0 < g.n * (g.n - 1) / 2 := by omega
      simp only [computeGraphDensity, if_neg hn, if_pos hmaxpos]
      constructor
      · positivity
      · rw [div_le_one (by exact_mod_cast hmaxpos)]
        exact_mod_cast hm

/-- C10 witness: the theorem applied to a single-node graph (density 0) and
to a loopless 3-node path-free graph with one edge (density within
[0, 1]). -/
theorem c10_density_bounds_witness :
    computeGraphDensity ⟨1, ∅⟩ = 0 ∧
    (0 ≤ computeGraphDensity ⟨3, {(0, 1), (1, 0)}⟩ ∧
      computeGraphDensity ⟨3, {(0, 1), (1, 0)}⟩ ≤ 1) :=
  ⟨(c10_density_bounds ⟨1, ∅⟩).1 (by decide),
    (c10_density_bounds ⟨3, {(0, 1), (1, 0)}⟩).2 (by decide) (by decide)⟩

/-- C10 counterexample: the well-formed 2-node graph with a self-loop on
each node and one ordinary edge has density 2.0 — outside [0, 1], so the
claim's second half is false as stated. -/
theorem c10_self_loop_counterexample :
    (⟨2, {(0, 0), (1, 1), (0, 1), (1, 0)}⟩ : NxGraph).wf ∧
    computeGraphDensity ⟨2, {(0, 0), (1, 1), (0, 1), (1, 0)}⟩ = 2 ∧
    ¬ ((2 : ℚ) ≤ 1) := by
  have hcard : ({(0, 0), (1, 1), (0, 1), (1, 0)} : Finset (Nat × Nat)).card = 4 := by
    decide
  refine ⟨by decide, ?_, by norm_num⟩
  simp only [computeGraphDensity, hcard]
  norm_num

/-- Appending a value under key `k` updates exactly `k`'s list. -/
theorem dlookup_dictAppend_self {β : Type} (acc : List (String × List β))
    (k : String) (v : β) :
    dlookup (dictAppend acc k v) k = some ((dlookup acc k).getD [] ++ [v]) := by
  induction acc with
  | nil => simp [dictAppend, dlookup]
  | cons p rest ih =>
      obtain ⟨k', vs⟩ := p
      by_cases h : k' = k
      · subst h
        simp [dictAppend, dlookup]
      · simp [dictAppend, dlookup, h, ih]

/-- Appending a value under key `k` leaves every other key's list alone. -/
theorem dlookup_dictAppend_other {β : Type} (acc : List (String × List β))
    (k k' : String) (v : β) (hne : k' ≠ k) :
    dlookup (dictAppend acc k v) k' = dlookup acc k' := by
  induction acc with
  | nil => simp only [dictAppend, dlookup, if_neg (Ne.symm hne)]
  | cons p rest ih =>
      obtain ⟨k0, vs⟩ := p
      by_cases h : k0 = k
      · subst h
        simp only [dictAppend, if_pos rfl, dlookup, if_neg (Ne.symm hne)]
      · simp only [dictAppend, if_neg h, dlookup]
        split
        · rfl
        · exact ih

/-- A found binding is a member of the association list. -/
theorem dlookup_mem {β : Type} (feats : List (String × β)) (f : String) (v : β)
    (h : dlookup feats f = some v) : (f, v) ∈ feats := by
  induction feats with
  | nil => simp [dlookup] at h
  | cons p rest ih =>
      obtain ⟨k, w⟩ := p
      by_cases hk : k = f
      · subst hk
        simp only [dlookup, eq_self_iff_true, if_true, Option.some.injEq] at h
        subst h
        exact List.mem_cons_self _ _
      · simp only [dlookup, if_neg hk] at h
        exact List.mem_cons_of_mem _ (ih h)

/-- Folding one result's feature dict into the accumulator: a key absent from
the features is untouched. -/
theorem foldFeatures_absent {β : Type} (feats : List (String × β))
    (f : String) :
    ∀ acc : List (String × List β), f ∉ feats.map Prod.fst →
      dlookup (feats.foldl (fun a p => dictAppend a p.1 p.2) acc) f =
        dlookup acc f := by
  induction feats with
  | nil => intro acc _; rfl
  | cons p rest ih =>
      intro acc habs
      obtain ⟨k, w⟩ := p
      simp only [List.map_cons, List.mem_cons, not_or] at habs
      simp only [List.foldl_cons]
      rw [ih (dictAppend acc k w) habs.2,
        dlookup_dictAppend_other acc k f w habs.1]

/-- Folding one result's feature dict into the accumulator: a key present
(under unique keys) gets exactly its value appended to its list. -/
theorem foldFeatures_present {β : Type} (feats : List (String × β))
    (f : String) (v : β) :
    ∀ acc : List (String × List β), (feats.map Prod.fst).Nodup →
      (f, v) ∈ feats →
      dlookup (feats.foldl (fun a p => dictAppend a p.1 p.2) acc) f =
        some ((dlookup acc f).getD [] ++ [v]) := by
  induction feats with
  | nil => intro acc _ hmem; simp at hmem
  | cons p rest ih =>
      intro acc hnd hmem
      obtain ⟨k, w⟩ := p
      simp only [List.map_cons, List.nodup_cons] at hnd
      simp only [List.foldl_cons]
      rcases List.mem_cons.mp hmem with heq | hrest
      · have hfk : f = k := congrArg Prod.fst heq
        have hvw : v = w := congrArg Prod.snd heq
        subst hfk
        subst hvw
        rw [foldFeatures_absent rest f (dictAppend acc f v) hnd.1,
          dlookup_dictAppend_self]
      · have hfk : f ≠ k := by
          intro he
          subst he
          exact hnd.1 (List.mem_map.mpr ⟨(f, v), hrest, rfl⟩)
        rw [ih (dictAppend acc k w) hnd.2 hrest,
          dlookup_dictAppend_other acc k f w hfk]

/-- Folding a list of batch results into the feature accumulator extends the
tracked key's list by the per-partition values, in partition order. -/
theorem collectFeatures_go {ρ β : Type} (f : String) :
    ∀ (brs : List (BatchResult ρ β)) (acc : List (String × List β))
      (vs : List β),
      dlookup acc f = some vs →
      (∀ r ∈ brs, (r.features.map Prod.fst).Nodup ∧
        (dlookup r.features f).isSome) →
      dlookup
          (brs.foldl
            (fun acc r => r.features.foldl (fun a p => dictAppend a p.1 p.2) acc)
            acc) f =
        some (vs ++ brs.filterMap (fun r => dlookup r.features f)) := by
  intro brs
  induction brs with
  | nil => intro acc vs h _; simpa using h
  | cons r rest ih =>
      intro acc vs h hyp
      obtain ⟨hnd, hsome⟩ := hyp r (List.mem_cons_self _ _)
      obtain ⟨v, hv⟩ := Option.isSome_iff_exists.mp hsome
      have hmem : (f, v) ∈ r.features := dlookup_mem r.features f v hv
      simp only [List.foldl_cons, List.filterMap_cons, hv]
      have hstep :
          dlookup (r.features.foldl (fun a p => dictAppend a p.1 p.2) acc) f =
            some (vs ++ [v]) := by
        rw [foldFeatures_present r.features f v acc hnd hmem, h]
        rfl
      rw [ih _ (vs ++ [v]) hstep
        (fun s hs => hyp s (List.mem_cons_of_mem _ hs))]
      simp

/-- When a function is defined on every element, `filterMap` keeps them
all. -/
theorem length_filterMap_of_isSome {γ δ : Type} (g : γ → Option δ) :
    ∀ l : List γ, (∀ x ∈ l, (g x).isSome) →
      (l.filterMap g).length = l.length := by
  intro l
  induction l with
  | nil => intro _; rfl
  | cons x rest ih =>
      intro h
      obtain ⟨v, hv⟩ :=
        Option.isSome_iff_exists.mp (h x (List.mem_cons_self _ _))
      simp only [List.filterMap_cons, hv, List.length_cons]
      rw [ih (fun y hy => h y (List.mem_cons_of_mem _ hy))]

/-- C9: for every non-empty ordered sequence of per-partition results whose
feature dicts have unique keys and all carry the tracked feature name,
`_aggregate_batch_results` succeeds, its persistence diagram is the
concatenation of the per-partition diagrams preserving partition order, the
tracked scalar feature is collected into an ordered list with exactly one
entry per partition (the per-partition values in order, never averaged), and
the `computation_time` durations are summed. -/
theorem c9_aggregate_merge_rules {ρ β : Type} (brs : List (BatchResult ρ β))
    (f : String) (hne : brs ≠ [])
    (hf : ∀ r ∈ brs, (r.features.map Prod.fst).Nodup ∧
      (dlookup r.features f).isSome) :
    aggregateBatchResults brs =
      Except.ok
        { persistence_diagram := (brs.map (fun r => r.persistence_diagram)).flatten
          features := collectFeatures brs
          computation_time := (brs.map (fun r => r.computation_time)).sum } ∧
    dlookup (collectFeatures brs) f =
      some (brs.filterMap (fun r => dlookup r.features f)) ∧
    (brs.filterMap (fun r => dlookup r.features f)).length = brs.length := by
  refine ⟨?_, ?_, ?_⟩
  · cases brs with
    | nil => exact absurd rfl hne
    | cons r rest => rfl
  · cases brs with
    | nil => exact absurd rfl hne
    | cons r rest =>
        obtain ⟨hnd, hsome⟩ := hf r (List.mem_cons_self _ _)
        obtain ⟨v, hv⟩ := Option.isSome_iff_exists.mp hsome
        have hmem : (f, v) ∈ r.features := dlookup_mem r.features f v hv
        simp only [collectFeatures, List.foldl_cons, List.filterMap_cons, hv]
        have hstep :
            dlookup (r.features.foldl (fun a p => dictAppend a p.1 p.2) []) f =
              some [v] := by
          rw [foldFeatures_present r.features f v [] hnd hmem]
          rfl
        rw [collectFeatures_go f rest _ [v] hstep
          (fun s hs => hf s (List.mem_cons_of_mem _ hs))]
        rfl
  · exact length_filterMap_of_isSome _ brs (fun r hr => (hf r hr).2)

/-- C9 witness: the theorem applied to two concrete partition results — the
diagrams concatenate in order, the feature `betti` collects the two
per-partition values as a two-element ordered list, and the durations sum
to 6. -/
theorem c9_aggregate_merge_rules_witness :
    aggregateBatchResults
        [(⟨[10], [("betti", 1)], 2⟩ : BatchResult Nat Nat),
         ⟨[20], [("betti", 3)], 4⟩] =
      Except.ok ⟨[10, 20], [("betti", [1, 3])], 6⟩ ∧
    dlookup
        (collectFeatures
          [(⟨[10], [("betti", 1)], 2⟩ : BatchResult Nat Nat),
           ⟨[20], [("betti", 3)], 4⟩]) "betti" =
      some [1, 3] := by
  have h := c9_aggregate_merge_rules
    [(⟨[10], [("betti", 1)], 2⟩ : BatchResult Nat Nat), ⟨[20], [("betti", 3)], 4⟩]
    "betti" (by simp) (by simp [dlookup])
  exact ⟨h.1, h.2.1⟩

end AnalyticsService
